import Mathlib

/-!
Verification development for the photon compiler front end.

Each definition below is a shallow embedding of a function or data
structure from the photon sources (file and function names are given in
the doc comments).  Machine integers (usize) are modelled as Nat with
explicit wrapping modulo 2 to the 64 where the source relies on unsigned
overflow.  Fallible operations return Except.  Loops are modelled as
fuelled recursion; a result of Option.none means the fuel ran out, which
never happens on the concrete inputs evaluated here unless noted.
-/

namespace Photon

/-! ## Source manager: line offsets and offset conversion
Mirrors src/compiler/source/src/source_manager.cpp. -/

/-- Error enumeration from source_manager.hpp (SourceError). -/
inductive SourceError where
  | FileNotFound
  | AccessDenied
  | InvalidEncoding
  | FileTooLarge
  | MemoryMapFailed
  | InvalidUtf8
  | CircularInclude
  | TooManyFiles
deriving DecidableEq, Repr

/-- Helper for SourceFile.build_line_offsets: scans the content bytes from
index i and emits the offset just past every line terminator.  A LF emits
i+1; a CR followed by LF emits i+2 and skips the LF; a bare CR emits i+1.
Bytes are Nat values (10 is LF, 13 is CR). -/
def line_starts_aux : List Nat → Nat → List Nat
  | [], _ => []
  | 10 :: rest, i => (i + 1) :: line_starts_aux rest (i + 1)
  | 13 :: 10 :: rest2, i => (i + 2) :: line_starts_aux rest2 (i + 2)
  | 13 :: rest, i => (i + 1) :: line_starts_aux rest (i + 1)
  | _ :: rest, i => line_starts_aux rest (i + 1)

/-- Mirrors SourceFile.build_line_offsets (source_manager.cpp lines 184 to
213): the table always starts with offset 0; the trailing if statements in
the source have empty bodies and are omitted. -/
def line_starts (content : List Nat) : List Nat :=
  0 :: line_starts_aux content 0

/-- Mirrors the behaviour of std upper_bound on the sorted line offset
vector: the index of the first element greater than the probe, or the
length when no element is greater. -/
def upper_bound : List Nat → Nat → Nat
  | [], _ => 0
  | x :: xs, o => if o < x then 0 else upper_bound xs o + 1

/-- Mirrors SourceFile.offset_to_line_column (source_manager.cpp lines 53
to 71).  Offsets beyond the content size are InvalidEncoding; otherwise a
binary search locates the line containing the offset and the column is the
one based distance from the line start. -/
def offset_to_line_column (content : List Nat) (offset : Nat) :
    Except SourceError (Nat × Nat) :=
  if offset > content.length then .error .InvalidEncoding
  else
    let ls := line_starts content
    let ub := upper_bound ls offset
    if ub = 0 then .error .InvalidEncoding
    else .ok (ub, offset - ls.getD (ub - 1) 0 + 1)

/-- Mirrors SourceFile.line_column_to_offset (source_manager.cpp lines 73
to 97).  The line end is the next line start minus one, or the content
size for the final line; the column must be at most the line length plus
one. -/
def line_column_to_offset (content : List Nat) (line column : Nat) :
    Except SourceError Nat :=
  let ls := line_starts content
  if line = 0 ∨ line > ls.length then .error .InvalidEncoding
  else
    let line_start := ls.getD (line - 1) 0
    let line_end := if line < ls.length then ls.getD line 0 - 1 else content.length
    let line_length := line_end - line_start
    if column = 0 ∨ column > line_length + 1 then .error .InvalidEncoding
    else .ok (line_start + column - 1)

/-! ## Source manager: UTF-8 validation -/

mutual

/-- Mirrors SourceFile.validate_utf8 (source_manager.cpp lines 146 to
182).  The checker dispatches on the masked lead byte and requires the
proper number of continuation bytes (top two bits 10); it performs no
overlong, surrogate or range checks.  The source tests the continuation
bytes of a sequence with one short circuit conjunction after a bounds
check; that test is modelled as one checker per remaining continuation
byte, which performs the same comparisons in the same order. -/
def validate_utf8 : List Nat → Bool
  | [] => true
  | b :: rest =>
    if b < 0x80 then validate_utf8 rest
    else if b &&& 0xE0 = 0xC0 then validate_cont1 rest
    else if b &&& 0xF0 = 0xE0 then validate_cont2 rest
    else if b &&& 0xF8 = 0xF0 then validate_cont3 rest
    else false

/-- Checks one continuation byte and resumes the scan. -/
def validate_cont1 : List Nat → Bool
  | b1 :: rest => if b1 &&& 0xC0 = 0x80 then validate_utf8 rest else false
  | [] => false

/-- Checks a continuation byte and then one more. -/
def validate_cont2 : List Nat → Bool
  | b1 :: rest => if b1 &&& 0xC0 = 0x80 then validate_cont1 rest else false
  | [] => false

/-- Checks a continuation byte and then two more. -/
def validate_cont3 : List Nat → Bool
  | b1 :: rest => if b1 &&& 0xC0 = 0x80 then validate_cont2 rest else false
  | [] => false

end

/-- Modelled from the spec: standard UTF-8 well-formedness, which the
sources do not define anywhere; the spec demands that the validator accept
exactly the byte sequences conforming to standard UTF-8 (RFC 3629 table:
minimal length encodings of scalar values up to 0x10FFFF excluding
surrogates). -/
def utf8_well_formed : List Nat → Bool
  | [] => true
  | b :: rest =>
    if b ≤ 0x7F then utf8_well_formed rest
    else if 0xC2 ≤ b ∧ b ≤ 0xDF then
      match rest with
      | b1 :: rest1 =>
        if 0x80 ≤ b1 ∧ b1 ≤ 0xBF then utf8_well_formed rest1 else false
      | [] => false
    else if b = 0xE0 then
      match rest with
      | b1 :: b2 :: rest2 =>
        if (0xA0 ≤ b1 ∧ b1 ≤ 0xBF) ∧ (0x80 ≤ b2 ∧ b2 ≤ 0xBF) then
          utf8_well_formed rest2
        else false
      | _ => false
    else if (0xE1 ≤ b ∧ b ≤ 0xEC) ∨ b = 0xEE ∨ b = 0xEF then
      match rest with
      | b1 :: b2 :: rest2 =>
        if (0x80 ≤ b1 ∧ b1 ≤ 0xBF) ∧ (0x80 ≤ b2 ∧ b2 ≤ 0xBF) then
          utf8_well_formed rest2
        else false
      | _ => false
    else if b = 0xED then
      match rest with
      | b1 :: b2 :: rest2 =>
        if (0x80 ≤ b1 ∧ b1 ≤ 0x9F) ∧ (0x80 ≤ b2 ∧ b2 ≤ 0xBF) then
          utf8_well_formed rest2
        else false
      | _ => false
    else if b = 0xF0 then
      match rest with
      | b1 :: b2 :: b3 :: rest3 =>
        if (0x90 ≤ b1 ∧ b1 ≤ 0xBF) ∧ (0x80 ≤ b2 ∧ b2 ≤ 0xBF) ∧
            (0x80 ≤ b3 ∧ b3 ≤ 0xBF) then
          utf8_well_formed rest3
        else false
      | _ => false
    else if 0xF1 ≤ b ∧ b ≤ 0xF3 then
      match rest with
      | b1 :: b2 :: b3 :: rest3 =>
        if (0x80 ≤ b1 ∧ b1 ≤ 0xBF) ∧ (0x80 ≤ b2 ∧ b2 ≤ 0xBF) ∧
            (0x80 ≤ b3 ∧ b3 ≤ 0xBF) then
          utf8_well_formed rest3
        else false
      | _ => false
    else if b = 0xF4 then
      match rest with
      | b1 :: b2 :: b3 :: rest3 =>
        if (0x80 ≤ b1 ∧ b1 ≤ 0x8F) ∧ (0x80 ≤ b2 ∧ b2 ≤ 0xBF) ∧
            (0x80 ≤ b3 ∧ b3 ≤ 0xBF) then
          utf8_well_formed rest3
        else false
      | _ => false
    else false

/-- Characterisation of the byte sequences the photon validator accepts: a
concatenation of units that are either an ASCII byte, or a masked two byte
lead with one continuation byte, or a masked three byte lead with two
continuation bytes, or a masked four byte lead with three continuation
bytes.  Overlong forms, surrogates and out of range values are not
excluded. -/
inductive LooseUtf8 : List Nat → Prop where
  | nil : LooseUtf8 []
  | ascii (b : Nat) (rest : List Nat) (hb : b < 0x80) :
      LooseUtf8 rest → LooseUtf8 (b :: rest)
  | two (b b1 : Nat) (rest : List Nat) (hb : b &&& 0xE0 = 0xC0)
      (h1 : b1 &&& 0xC0 = 0x80) :
      LooseUtf8 rest → LooseUtf8 (b :: b1 :: rest)
  | three (b b1 b2 : Nat) (rest : List Nat) (hb : b &&& 0xF0 = 0xE0)
      (h1 : b1 &&& 0xC0 = 0x80) (h2 : b2 &&& 0xC0 = 0x80) :
      LooseUtf8 rest → LooseUtf8 (b :: b1 :: b2 :: rest)
  | four (b b1 b2 b3 : Nat) (rest : List Nat) (hb : b &&& 0xF8 = 0xF0)
      (h1 : b1 &&& 0xC0 = 0x80) (h2 : b2 &&& 0xC0 = 0x80)
      (h3 : b3 &&& 0xC0 = 0x80) :
      LooseUtf8 rest → LooseUtf8 (b :: b1 :: b2 :: b3 :: rest)

/-! ## Memory arena
Mirrors src/compiler/memory/include/photon/memory/arena_impl.hpp with the
default template parameters BlockSize 65536 and Alignment 16
(alignof of std max_align_t).  Pointers are Nat addresses; the system
allocator is modelled as handing out fresh blocks at address
2 to the 20 times (index plus one), which satisfies the alignas(Alignment)
guarantee of the Block structure. -/

/-- Block size template parameter default (64 KiB). -/
def arenaBlockSize : Nat := 65536

/-- Wraps a Nat into the unsigned 64 bit range, mirroring usize
arithmetic. -/
def wrap64 (n : Nat) : Nat := n % 2 ^ 64

/-- Unsigned 64 bit subtraction with wraparound, mirroring usize. -/
def sub64 (a b : Nat) : Nat := wrap64 (a + 2 ^ 64 - wrap64 b)

/-- Bitwise complement within 64 bits. -/
def not64 (a : Nat) : Nat := 2 ^ 64 - 1 - wrap64 a

/-- Mirrors MemoryArena.align_pointer (arena_impl.hpp lines 237 to 242):
(addr + alignment - 1) AND NOT (alignment - 1) in usize arithmetic. -/
def align_pointer (addr alignment : Nat) : Nat :=
  Nat.land (sub64 (wrap64 (addr + alignment)) 1) (not64 (sub64 alignment 1))

/-- Error kinds for the arena in the spec taxonomy: InvalidRequest stands
for the std invalid_argument throws, OutOfMemory for std bad_alloc. -/
inductive ArenaError where
  | invalidRequest
  | outOfMemory
deriving DecidableEq, Repr

/-- Observable state of a MemoryArena: block count, bump pointer, end of
the current block, and the two byte counters.  Block payload bytes are not
modelled; current_pos and block_end are addresses. -/
structure MemoryArena where
  block_count : Nat
  current_pos : Nat
  block_end : Nat
  bytes_used : Nat
  total_allocated : Nat
deriving DecidableEq, Repr

/-- Address at which the modelled system allocator places block k. -/
def block_base (k : Nat) : Nat := 2 ^ 20 * (k + 1)

/-- Arena as produced by the default constructor. -/
def MemoryArena.fresh : MemoryArena :=
  { block_count := 0, current_pos := 0, block_end := 0,
    bytes_used := 0, total_allocated := 0 }

/-- Mirrors MemoryArena.allocate_new_block (arena_impl.hpp lines 217 to
235): chains a fresh block and points the bump pointer at its start. -/
def MemoryArena.allocate_new_block (a : MemoryArena) : MemoryArena :=
  { a with
    block_count := a.block_count + 1,
    current_pos := block_base a.block_count,
    block_end := block_base a.block_count + arenaBlockSize }

/-- Mirrors MemoryArena.allocate (arena_impl.hpp lines 79 to 121).  The
power of two test is the source expression
(alignment AND (alignment - 1)) != 0 evaluated in usize arithmetic, so
alignment 0 passes it because 0 - 1 wraps to all ones. -/
def MemoryArena.allocate (a : MemoryArena) (size alignment : Nat) :
    Except ArenaError (Nat × MemoryArena) :=
  if size = 0 then .error .invalidRequest
  else if size > arenaBlockSize then .error .invalidRequest
  else if Nat.land (wrap64 alignment) (sub64 alignment 1) ≠ 0 then
    .error .invalidRequest
  else
    let a1 := if a.block_count = 0 then a.allocate_new_block else a
    let aligned := align_pointer a1.current_pos alignment
    let allocation_end := aligned + size
    if allocation_end > a1.block_end then
      let a2 := a1.allocate_new_block
      let aligned2 := align_pointer a2.current_pos alignment
      let allocation_end2 := aligned2 + size
      if allocation_end2 > a2.block_end then .error .outOfMemory
      else
        .ok (aligned2,
          { a2 with
            current_pos := allocation_end2,
            bytes_used := a2.bytes_used + (allocation_end2 - aligned2),
            total_allocated := a2.total_allocated + (allocation_end2 - aligned2) })
    else
      .ok (aligned,
        { a1 with
          current_pos := allocation_end,
          bytes_used := a1.bytes_used + (allocation_end - aligned),
          total_allocated := a1.total_allocated + (allocation_end - aligned) })

/-- Mirrors MemoryArena.reset (arena_impl.hpp lines 160 to 178): keeps the
first block, rewinds the bump pointer, zeroes bytes_used, leaves
total_allocated alone; a no-op when no block was ever allocated. -/
def MemoryArena.reset (a : MemoryArena) : MemoryArena :=
  if a.block_count = 0 then a
  else
    { a with
      block_count := 1,
      current_pos := block_base 0,
      block_end := block_base 0 + arenaBlockSize,
      bytes_used := 0 }

/-! ## Diagnostics engine
Mirrors src/compiler/diagnostics/src/diagnostic_engine.cpp and the builder
in diagnostic_engine.hpp.  Atomic counters are plain Nat fields because
the claims concern single threaded behaviour. -/

/-- Severity levels from diagnostic.hpp. -/
inductive DiagnosticLevel where
  | Note
  | Warning
  | Error
  | Fatal
deriving DecidableEq, Repr

/-- Source location payload carried by diagnostics (filename, line,
column); the byte offset is irrelevant to the claims and omitted. -/
structure SourceLocation where
  filename : String
  line : Nat
  column : Nat
deriving DecidableEq, Repr

/-- Primary message of a diagnostic (level, numeric code, text,
location); notes are a list of further messages. -/
structure DiagnosticMessage where
  level : DiagnosticLevel
  code : Nat
  text : String
  location : SourceLocation
deriving DecidableEq, Repr

/-- Diagnostic record: primary message plus attached notes. -/
structure Diagnostic where
  primary : DiagnosticMessage
  notes : List DiagnosticMessage
deriving DecidableEq, Repr

/-- Level accessor mirroring Diagnostic.level(). -/
def Diagnostic.level (d : Diagnostic) : DiagnosticLevel := d.primary.level

/-- Engine state: the shared arena reference, the ordered diagnostic
storage, the error limit and the counters. -/
structure DiagnosticEngine where
  arena : MemoryArena
  diagnostics : List Diagnostic
  max_errors : Nat
  error_count : Nat
  warning_count : Nat
  note_count : Nat
  fatal_encountered : Bool
deriving DecidableEq, Repr

/-- Engine over a given arena as built by the constructor with the default
error limit 0 (unlimited). -/
def DiagnosticEngine.create (arena : MemoryArena) : DiagnosticEngine :=
  { arena := arena, diagnostics := [], max_errors := 0,
    error_count := 0, warning_count := 0, note_count := 0,
    fatal_encountered := false }

/-- Mirrors DiagnosticEngine.has_fatal_error. -/
def DiagnosticEngine.has_fatal_error (e : DiagnosticEngine) : Bool :=
  e.fatal_encountered

/-- Mirrors DiagnosticEngine.error_limit_reached. -/
def DiagnosticEngine.error_limit_reached (e : DiagnosticEngine) : Bool :=
  decide (e.max_errors > 0 ∧ e.error_count ≥ e.max_errors)

/-- Mirrors DiagnosticEngine.should_stop_compilation. -/
def DiagnosticEngine.should_stop_compilation (e : DiagnosticEngine) : Bool :=
  e.has_fatal_error || e.error_limit_reached

/-- Mirrors DiagnosticEngine.update_counters (diagnostic_engine.cpp lines
116 to 131); the Fatal case falls through into the Error increment. -/
def DiagnosticEngine.update_counters (e : DiagnosticEngine) (d : Diagnostic) :
    DiagnosticEngine :=
  match d.level with
  | .Fatal =>
    { e with fatal_encountered := true, error_count := e.error_count + 1 }
  | .Error => { e with error_count := e.error_count + 1 }
  | .Warning => { e with warning_count := e.warning_count + 1 }
  | .Note => { e with note_count := e.note_count + 1 }

/-- Mirrors DiagnosticEngine.report(Diagnostic) (diagnostic_engine.cpp
lines 13 to 27): rejected when should_stop_compilation holds beforehand,
otherwise counters update, the diagnostic is appended, and the return
value is the negation of should_stop_compilation afterwards. -/
def DiagnosticEngine.report (e : DiagnosticEngine) (d : Diagnostic) :
    Bool × DiagnosticEngine :=
  if e.should_stop_compilation then (false, e)
  else
    let e1 := e.update_counters d
    let e2 := { e1 with diagnostics := e1.diagnostics ++ [d] }
    (!e2.should_stop_compilation, e2)

/-- Mirrors the convenience overload report(level, code, message,
location). -/
def DiagnosticEngine.report_simple (e : DiagnosticEngine)
    (level : DiagnosticLevel) (code : Nat) (message : String)
    (location : SourceLocation) : Bool × DiagnosticEngine :=
  e.report { primary := { level := level, code := code, text := message,
                          location := location }, notes := [] }

/-- Mirrors DiagnosticEngine.error. -/
def DiagnosticEngine.error (e : DiagnosticEngine) (code : Nat)
    (message : String) (location : SourceLocation) : Bool × DiagnosticEngine :=
  e.report_simple .Error code message location

/-- Mirrors DiagnosticEngine.fatal (diagnostic_engine.cpp lines 36 to 40):
stores true into fatal_encountered first, then calls report, then returns
false unconditionally. -/
def DiagnosticEngine.fatal (e : DiagnosticEngine) (code : Nat)
    (message : String) (location : SourceLocation) : Bool × DiagnosticEngine :=
  let e1 := { e with fatal_encountered := true }
  let r := e1.report_simple .Fatal code message location
  (false, r.2)

/-- Mirrors DiagnosticEngine.clear (diagnostic_engine.cpp lines 67 to 75):
clears the storage, resets the shared arena, and zeroes every counter. -/
def DiagnosticEngine.clear (e : DiagnosticEngine) : DiagnosticEngine :=
  { e with
    diagnostics := [],
    arena := e.arena.reset,
    error_count := 0,
    warning_count := 0,
    note_count := 0,
    fatal_encountered := false }

/-- Builder state from diagnostic_engine.hpp lines 284 to 361: the pending
diagnostic and the emitted flag, which starts false. -/
structure DiagnosticBuilder where
  diagnostic : Diagnostic
  emitted : Bool
deriving DecidableEq, Repr

/-- Mirrors the make_error factory (diagnostic_engine.hpp lines 373 to
376) restricted to the builder value it constructs. -/
def make_error (code : Nat) (message : String) (location : SourceLocation) :
    DiagnosticBuilder :=
  { diagnostic := { primary := { level := .Error, code := code,
                                 text := message, location := location },
                    notes := [] },
    emitted := false }

/-- Mirrors DiagnosticBuilder.emit (diagnostic_engine.hpp lines 333 to
335): submits the diagnostic to the engine.  The source does not set the
emitted_ flag here, so the builder value is returned unchanged. -/
def DiagnosticBuilder.emit (b : DiagnosticBuilder) (e : DiagnosticEngine) :
    (Bool × DiagnosticEngine) × DiagnosticBuilder :=
  (e.report b.diagnostic, b)

/-- Mirrors the DiagnosticBuilder destructor (diagnostic_engine.hpp lines
340 to 344): emits when the emitted_ flag is still false. -/
def DiagnosticBuilder.destruct (b : DiagnosticBuilder) (e : DiagnosticEngine) :
    DiagnosticEngine :=
  if b.emitted then e else (e.report b.diagnostic).2

/-! ## Token stream
Mirrors the TokenType enumeration, Token and TokenStream from
src/compiler/lexer/include/photon/lexer/token.hpp.  The FloatLiteral and
CharLiteral kinds are omitted because no claim exercises a float or char
payload, and keywords not consulted by the parser are omitted. -/

/-- Token kinds from token.hpp (the subset the parser dispatches on, with
the names of the C++ enumerators). -/
inductive TokenType where
  | Invalid
  | Eof
  | Newline
  | IntegerLiteral
  | StringLiteral
  | BoolLiteral
  | Identifier
  | KwFn
  | KwStruct
  | KwEnum
  | KwTrait
  | KwImpl
  | KwConst
  | KwLet
  | KwMut
  | KwI32
  | Plus
  | Minus
  | Star
  | Slash
  | Percent
  | StarStar
  | Equal
  | NotEqual
  | Less
  | Greater
  | LessEqual
  | GreaterEqual
  | Spaceship
  | And
  | Or
  | Not
  | Ampersand
  | Pipe
  | Caret
  | Tilde
  | LeftShift
  | RightShift
  | Assign
  | PlusAssign
  | MinusAssign
  | StarAssign
  | SlashAssign
  | PercentAssign
  | AndAssign
  | OrAssign
  | XorAssign
  | LeftShiftAssign
  | RightShiftAssign
  | Arrow
  | DotDot
  | DotDotEqual
  | LeftParen
  | RightParen
  | LeftBrace
  | RightBrace
  | Comma
  | Semicolon
  | Colon
deriving DecidableEq, Repr

/-- Token payload variants from token.hpp (monostate, i64, string slice,
bool; the f64 variant is unused by the claims and omitted). -/
inductive TokenValue where
  | none
  | intVal (v : Int)
  | strVal (s : String)
  | boolVal (b : Bool)
deriving DecidableEq, Repr

/-- Token: kind plus payload; locations are not consulted by any claim
and are omitted. -/
structure Token where
  type : TokenType
  value : TokenValue
deriving DecidableEq, Repr

/-- Static end of file token returned by TokenStream when the position is
out of range (token.cpp eof_token). -/
def eof_token : Token := { type := .Eof, value := .none }

/-- TokenStream state: owned token vector and cursor position. -/
structure TokenStream where
  tokens : List Token
  position : Nat
deriving DecidableEq, Repr

/-- Mirrors TokenStream.current (token.hpp lines 269 to 271). -/
def TokenStream.current (ts : TokenStream) : Token :=
  if h : ts.position < ts.tokens.length then ts.tokens.get ⟨ts.position, h⟩
  else eof_token

/-- Mirrors TokenStream.peek (token.hpp lines 273 to 276). -/
def TokenStream.peek (ts : TokenStream) (offset : Nat) : Token :=
  if h : ts.position + offset < ts.tokens.length then
    ts.tokens.get ⟨ts.position + offset, h⟩
  else eof_token

/-- Mirrors TokenStream.advance (token.hpp lines 278 to 282). -/
def TokenStream.advance (ts : TokenStream) : TokenStream :=
  if ts.position < ts.tokens.length then
    { ts with position := ts.position + 1 }
  else ts

/-- Mirrors TokenStream.size. -/
def TokenStream.size (ts : TokenStream) : Nat := ts.tokens.length

/-- Mirrors TokenStream.is_eof (token.hpp lines 288 to 290). -/
def TokenStream.is_eof (ts : TokenStream) : Bool :=
  decide (ts.position ≥ ts.tokens.length) || decide (ts.current.type = .Eof)

/-- Mirrors TokenStream.seek (token.hpp line 293): clamps to the size. -/
def TokenStream.seek (ts : TokenStream) (pos : Nat) : TokenStream :=
  { ts with position := min pos ts.tokens.length }

/-- Mirrors TokenStream.reset (token.hpp line 292). -/
def TokenStream.reset_stream (ts : TokenStream) : TokenStream :=
  { ts with position := 0 }

/-- Mirrors Token.text (token.hpp lines 231 to 236): the string payload
when present, otherwise the empty slice. -/
def Token.text (t : Token) : String :=
  match t.value with
  | .strVal s => s
  | _ => ""

/-! ## Parser
Mirrors src/compiler/parser/src/parser.cpp and parser.hpp.  Source ranges
are not consulted by any claim and are not modelled.  Every parsing
function threads an explicit ParserState and takes a fuel argument; fuel
exhaustion yields Option.none and never occurs in the evaluations below
except where divergence of the source loop is being discussed. -/

/-- Parser error enumeration from parser.hpp lines 21 to 38. -/
inductive ParseError where
  | UnexpectedToken
  | UnexpectedEof
  | ExpectedExpression
  | ExpectedStatement
  | ExpectedDeclaration
  | ExpectedIdentifier
  | ExpectedType
  | ExpectedOperator
  | InvalidSyntax
  | MissingDelimiter
  | InvalidLiteral
  | NestedTooDeep
  | InvalidAssignment
  | DuplicateParameter
  | InvalidReturnType
  | MissingFunctionBody
deriving DecidableEq, Repr

/-- Recovery strategies from parser.hpp lines 43 to 48. -/
inductive RecoveryStrategy where
  | Skip
  | Synchronize
  | Insert
  | Abort
deriving DecidableEq, Repr

/-- Binary operator enumeration from ast.hpp lines 321 to 330. -/
inductive BinaryOperator where
  | Add | Sub | Mul | Div | Mod | Pow
  | Equal | NotEqual | Less | Greater
  | LessEqual | GreaterEqual | Spaceship
  | LogicalAnd | LogicalOr
  | BitwiseAnd | BitwiseOr | BitwiseXor
  | LeftShift | RightShift
  | Assign
  | Range | RangeInclusive
deriving DecidableEq, Repr

/-- Unary operator enumeration from ast.hpp lines 365 to 368. -/
inductive UnaryOperator where
  | Plus | Minus | Not | BitwiseNot | Dereference | AddressOf
deriving DecidableEq, Repr

/-- Expression nodes from ast.hpp (literal, identifier, binary, unary,
call); char literals and float literals are omitted along with source
ranges. -/
inductive Expr where
  | integerLiteral (value : Int)
  | stringLiteral (value : String)
  | boolLiteral (value : Bool)
  | identifier (name : String)
  | binaryExpr (left : Expr) (op : BinaryOperator) (right : Expr)
  | unaryExpr (op : UnaryOperator) (operand : Expr)
  | callExpr (callee : Expr) (args : List Expr)
deriving Repr

/-- Statement nodes from ast.hpp: blocks and variable declarations.  The
statement list of a block holds only variable declarations because
Parser.parse_statement_list discards parsed expressions. -/
inductive Stmt where
  | varDecl (name : String) ( type_annotation : Option Expr)
      (initializer : Option Expr) (is_mutable : Bool)
  | block (statements : List Stmt)
deriving Repr

/-- Parameter record from FunctionDecl in ast.hpp (name and type; the
source range is omitted). -/
structure Parameter where
  name : String
  type : Expr
deriving Repr

/-- Function declaration node from ast.hpp. -/
structure FunctionDecl where
  name : String
  parameters : List Parameter
  return_type : Option Expr
  body : Stmt
deriving Repr

/-- Declaration nodes: only function declarations are parsed. -/
inductive Decl where
  | functionDecl (f : FunctionDecl)
deriving Repr

/-- Program node: ordered declarations. -/
structure Program where
  declarations : List Decl
deriving Repr

/-- Parser configuration from parser.hpp lines 53 to 58 (the fields the
claims exercise). -/
structure ParserOptions where
  max_recursion_depth : Nat := 1000
  enable_error_recovery : Bool := true
deriving Repr

/-- Parser state: token stream cursor, options, recursion depth and the
accumulated error list. -/
structure ParserState where
  tokens : TokenStream
  options : ParserOptions
  recursion_depth : Nat
  errors : List ParseError
deriving Repr

/-- Mirrors Parser.current. -/
def ParserState.current (st : ParserState) : Token := st.tokens.current

/-- Mirrors Parser.advance. -/
def ParserState.advance (st : ParserState) : ParserState :=
  { st with tokens := st.tokens.advance }

/-- Mirrors Parser.is_eof. -/
def ParserState.is_eof (st : ParserState) : Bool := st.tokens.is_eof

/-- Mirrors Parser.report_error (parser.cpp lines 775 to 777). -/
def ParserState.report_error (st : ParserState) (e : ParseError) : ParserState :=
  { st with errors := st.errors ++ [e] }

/-- Mirrors Parser.consume (parser.cpp lines 754 to 763). -/
def ParserState.consume (st : ParserState) (expected : TokenType) :
    Except ParseError Token × ParserState :=
  if st.current.type = expected then (.ok st.current, st.advance)
  else (.error .UnexpectedToken, st.report_error .UnexpectedToken)

/-- Mirrors Parser.is_synchronization_point (parser.cpp lines 805 to
821). -/
def ParserState.is_synchronization_point (st : ParserState) : Bool :=
  match st.current.type with
  | .KwFn | .KwStruct | .KwEnum | .KwTrait | .KwImpl | .KwLet | .KwConst
  | .LeftBrace | .RightBrace | .Semicolon => true
  | _ => false

/-- Mirrors Parser.enter_recursion (parser.cpp lines 823 to 829). -/
def ParserState.enter_recursion (st : ParserState) :
    Except ParseError Unit × ParserState :=
  if st.recursion_depth ≥ st.options.max_recursion_depth then
    (.error .NestedTooDeep, st)
  else (.ok (), { st with recursion_depth := st.recursion_depth + 1 })

/-- Mirrors Parser.exit_recursion (parser.cpp lines 831 to 835). -/
def ParserState.exit_recursion (st : ParserState) : ParserState :=
  if st.recursion_depth > 0 then
    { st with recursion_depth := st.recursion_depth - 1 }
  else st

/-- Mirrors Parser.get_precedence (parser.cpp lines 595 to 659) with the
numeric values of the Precedence enumeration from parser.hpp lines 228 to
246; unknown tokens map to Precedence None, which is 0. -/
def get_precedence : TokenType → Int
  | .Assign | .PlusAssign | .MinusAssign | .StarAssign | .SlashAssign
  | .PercentAssign | .AndAssign | .OrAssign | .XorAssign
  | .LeftShiftAssign | .RightShiftAssign => 10
  | .DotDot | .DotDotEqual => 20
  | .Or => 30
  | .And => 40
  | .Equal | .NotEqual | .Spaceship => 50
  | .Less | .Greater | .LessEqual | .GreaterEqual => 60
  | .Pipe => 70
  | .Caret => 80
  | .Ampersand => 90
  | .LeftShift | .RightShift => 100
  | .Plus | .Minus => 110
  | .Star | .Slash | .Percent => 120
  | .StarStar => 130
  | _ => 0

/-- Mirrors Parser.is_right_associative (parser.cpp lines 661 to 680). -/
def is_right_associative : TokenType → Bool
  | .Assign | .PlusAssign | .MinusAssign | .StarAssign | .SlashAssign
  | .PercentAssign | .AndAssign | .OrAssign | .XorAssign
  | .LeftShiftAssign | .RightShiftAssign | .StarStar => true
  | _ => false

/-- Mirrors Parser.token_to_binary_op (parser.cpp lines 682 to 733): note
the compound assignment tokens are absent and fall into the default
ExpectedOperator case. -/
def token_to_binary_op : TokenType → Except ParseError BinaryOperator
  | .Plus => .ok .Add
  | .Minus => .ok .Sub
  | .Star => .ok .Mul
  | .Slash => .ok .Div
  | .Percent => .ok .Mod
  | .StarStar => .ok .Pow
  | .Equal => .ok .Equal
  | .NotEqual => .ok .NotEqual
  | .Less => .ok .Less
  | .Greater => .ok .Greater
  | .LessEqual => .ok .LessEqual
  | .GreaterEqual => .ok .GreaterEqual
  | .Spaceship => .ok .Spaceship
  | .And => .ok .LogicalAnd
  | .Or => .ok .LogicalOr
  | .Ampersand => .ok .BitwiseAnd
  | .Pipe => .ok .BitwiseOr
  | .Caret => .ok .BitwiseXor
  | .LeftShift => .ok .LeftShift
  | .RightShift => .ok .RightShift
  | .Assign => .ok .Assign
  | .DotDot => .ok .Range
  | .DotDotEqual => .ok .RangeInclusive
  | _ => .error .ExpectedOperator

/-- Mirrors Parser.token_to_unary_op (parser.cpp lines 735 to 752). -/
def token_to_unary_op : TokenType → Except ParseError UnaryOperator
  | .Plus => .ok .Plus
  | .Minus => .ok .Minus
  | .Not => .ok .Not
  | .Tilde => .ok .BitwiseNot
  | .Star => .ok .Dereference
  | .Ampersand => .ok .AddressOf
  | _ => .error .ExpectedOperator

/-- Mirrors Parser.parse_literal (parser.cpp lines 459 to 517): the token
is consumed first, then dispatched on; payload tag mismatches report
InvalidLiteral. -/
def parse_literal (st0 : ParserState) : Except ParseError Expr × ParserState :=
  let tok := st0.current
  let st := st0.advance
  match tok.type with
  | .IntegerLiteral =>
    match tok.value with
    | .intVal v => (.ok (.integerLiteral v), st)
    | _ => (.error .InvalidLiteral, st.report_error .InvalidLiteral)
  | .StringLiteral =>
    match tok.value with
    | .strVal s => (.ok (.stringLiteral s), st)
    | _ => (.error .InvalidLiteral, st.report_error .InvalidLiteral)
  | .BoolLiteral =>
    match tok.value with
    | .boolVal b => (.ok (.boolLiteral b), st)
    | _ => (.error .InvalidLiteral, st.report_error .InvalidLiteral)
  | _ => (.error .InvalidLiteral, st.report_error .InvalidLiteral)

/-- Mirrors Parser.parse_identifier (parser.cpp lines 519 to 535); the
produced Identifier node is represented by its name. -/
def parse_identifier (st : ParserState) : Except ParseError String × ParserState :=
  if st.current.type = .Identifier then
    (.ok st.current.text, st.advance)
  else
    (.error .ExpectedIdentifier, st.report_error .ExpectedIdentifier)

/-- Mirrors Parser.parse_type (parser.cpp lines 585 to 593): a type is an
identifier converted to an expression. -/
def parse_type (st : ParserState) : Except ParseError Expr × ParserState :=
  match parse_identifier st with
  | (.ok name, st) => (.ok (.identifier name), st)
  | (.error e, st) => (.error e, st)

/-- Mirrors Parser.parse_parameter (parser.cpp lines 174 to 201). -/
def parse_parameter (st : ParserState) :
    Except ParseError Parameter × ParserState :=
  match parse_identifier st with
  | (.error e, st) => (.error e, st)
  | (.ok name, st) =>
    match st.consume .Colon with
    | (.error e, st) => (.error e, st)
    | (.ok _, st) =>
      match parse_type st with
      | (.error e, st) => (.error e, st)
      | (.ok ty, st) => (.ok { name := name, type := ty }, st)

/-- Record of the mutually recursive expression parsing functions at one
fuel level.  The C++ functions parse_expr, parse_primary, parse_postfix,
parse_call_expr and parse_call_arguments recurse into one another; the
record indexes them by remaining fuel so that each level calls the level
below, which is the same fuel discipline as passing a decremented fuel
argument to every call. -/
structure ExprParsers where
  expr : Int → ParserState → Option (Except ParseError Expr × ParserState)
  expr_loop : Int → Expr → ParserState →
    Option (Except ParseError Expr × ParserState)
  primary : ParserState → Option (Except ParseError Expr × ParserState)
  postfix_loop : Expr → ParserState →
    Option (Except ParseError Expr × ParserState)
  call_expr : Expr → ParserState →
    Option (Except ParseError Expr × ParserState)
  call_arguments : ParserState →
    Option (Except ParseError (List Expr) × ParserState)
  call_arguments_loop : List Expr → ParserState →
    Option (Except ParseError (List Expr) × ParserState)

/-- Expression parsers with the fuel exhausted: every call reports that
it ran out of fuel. -/
def exprParsersZero : ExprParsers :=
  { expr := fun _ _ => Option.none,
    expr_loop := fun _ _ _ => Option.none,
    primary := fun _ => Option.none,
    postfix_loop := fun _ _ => Option.none,
    call_expr := fun _ _ => Option.none,
    call_arguments := fun _ => Option.none,
    call_arguments_loop := fun _ _ => Option.none }

/-- Expression parsers at fuel level n plus one; each body is the direct
translation of the corresponding parser.cpp function and calls the level
n parsers for every recursive call.

The expr field mirrors Parser.parse_expr (parser.cpp lines 316 to 368):
recursion guard, primary, operator climbing loop, then postfix;
exit_recursion is applied on every return path after a successful
enter_recursion.

The expr_loop field mirrors the while loop inside Parser.parse_expr
(parser.cpp lines 330 to 363): while not at end of file, stop when the
precedence of the current token drops below the minimum, otherwise
consume the operator, parse the right hand side with minimum precedence p
when the operator is right associative and p plus one otherwise, and fold
a BinaryExpr.

The primary field mirrors Parser.parse_primary (parser.cpp lines 370 to
436).

The postfix_loop field mirrors Parser.parse_postfix (parser.cpp lines 438
to 457): while not at end of file, a left parenthesis starts a call; any
other token returns the accumulated expression.

The call_expr field mirrors Parser.parse_call_expr (parser.cpp lines 537
to 551).

The call_arguments field mirrors Parser.parse_call_arguments (parser.cpp
lines 553 to 583); its loop is the call_arguments_loop field: while the
current token is not a right parenthesis and not end of file, parse an
expression; a comma is consumed and the loop continues, a right
parenthesis ends the loop, anything else is MissingDelimiter. -/
def exprParsersStep (p : ExprParsers) : ExprParsers :=
  { expr := fun min_precedence st0 =>
      match st0.enter_recursion with
      | (.error e, st) => some (.error e, st)
      | (.ok _, st) =>
        match p.primary st with
        | Option.none => Option.none
        | some (.error e, st) => some (.error e, st.exit_recursion)
        | some (.ok left, st) =>
          match p.expr_loop min_precedence left st with
          | Option.none => Option.none
          | some (.error e, st) => some (.error e, st.exit_recursion)
          | some (.ok left, st) =>
            match p.postfix_loop left st with
            | Option.none => Option.none
            | some (r, st) => some (r, st.exit_recursion),
    expr_loop := fun min_precedence left st =>
      if st.is_eof then some (.ok left, st)
      else
        let current_precedence := get_precedence st.current.type
        if current_precedence < min_precedence then some (.ok left, st)
        else
          let op_token := st.current
          let st := st.advance
          let next_min :=
            if is_right_associative op_token.type then current_precedence
            else current_precedence + 1
          match p.expr next_min st with
          | Option.none => Option.none
          | some (.error e, st) => some (.error e, st)
          | some (.ok right, st) =>
            match token_to_binary_op op_token.type with
            | .error e => some (.error e, st)
            | .ok op =>
              p.expr_loop min_precedence (.binaryExpr left op right) st,
    primary := fun st =>
      match st.current.type with
      | .IntegerLiteral | .StringLiteral | .BoolLiteral =>
        some (parse_literal st)
      | .Identifier =>
        match parse_identifier st with
        | (.ok name, st) => some (.ok (.identifier name), st)
        | (.error e, st) => some (.error e, st)
      | .LeftParen =>
        let st := st.advance
        match p.expr 0 st with
        | Option.none => Option.none
        | some (.error e, st) => some (.error e, st)
        | some (.ok e, st) =>
          match st.consume .RightParen with
          | (.error err, st) => some (.error err, st)
          | (.ok _, st) => some (.ok e, st)
      | .Plus | .Minus | .Not | .Tilde | .Ampersand | .Star =>
        let op_token := st.current
        let st := st.advance
        match token_to_unary_op op_token.type with
        | .error e => some (.error e, st)
        | .ok op =>
          match p.expr 140 st with
          | Option.none => Option.none
          | some (.error e, st) => some (.error e, st)
          | some (.ok operand, st) => some (.ok (.unaryExpr op operand), st)
      | _ =>
        some (.error .ExpectedExpression, st.report_error .ExpectedExpression),
    postfix_loop := fun left st =>
      if st.is_eof then some (.ok left, st)
      else
        match st.current.type with
        | .LeftParen =>
          match p.call_expr left st with
          | Option.none => Option.none
          | some (.error e, st) => some (.error e, st)
          | some (.ok call, st) => p.postfix_loop call st
        | _ => some (.ok left, st),
    call_expr := fun callee st =>
      match p.call_arguments st with
      | Option.none => Option.none
      | some (.error e, st) => some (.error e, st)
      | some (.ok args, st) => some (.ok (.callExpr callee args), st),
    call_arguments := fun st =>
      match st.consume .LeftParen with
      | (.error e, st) => some (.error e, st)
      | (.ok _, st) =>
        match p.call_arguments_loop [] st with
        | Option.none => Option.none
        | some (.error e, st) => some (.error e, st)
        | some (.ok args, st) =>
          match st.consume .RightParen with
          | (.error e, st) => some (.error e, st)
          | (.ok _, st) => some (.ok args, st),
    call_arguments_loop := fun acc st =>
      if st.current.type = .RightParen ∨ st.is_eof then some (.ok acc, st)
      else
        match p.expr 0 st with
        | Option.none => Option.none
        | some (.error e, st) => some (.error e, st)
        | some (.ok arg, st) =>
          let acc := acc ++ [arg]
          if st.current.type = .Comma then
            p.call_arguments_loop acc st.advance
          else if st.current.type ≠ .RightParen then
            some (.error .MissingDelimiter, st.report_error .MissingDelimiter)
          else p.call_arguments_loop acc st }

/-- Expression parsers with a given amount of fuel. -/
def expr_parsers : Nat → ExprParsers
  | 0 => exprParsersZero
  | Nat.succ n => exprParsersStep (expr_parsers n)

/-- Mirrors Parser.parse_expr at a fuel level. -/
def parse_expr (fuel : Nat) (min_precedence : Int) (st : ParserState) :
    Option (Except ParseError Expr × ParserState) :=
  (expr_parsers fuel).expr min_precedence st

/-- Mirrors Parser.parse_call_arguments at a fuel level. -/
def parse_call_arguments (fuel : Nat) (st : ParserState) :
    Option (Except ParseError (List Expr) × ParserState) :=
  (expr_parsers fuel).call_arguments st

/-- Mirrors Parser.synchronize (parser.cpp lines 799 to 803): advance
until end of file or a synchronization point. -/
def synchronize (fuel : Nat) (st : ParserState) : Option ParserState :=
  match fuel with
  | 0 => Option.none
  | Nat.succ n =>
    if ¬ st.is_eof ∧ ¬ st.is_synchronization_point then
      synchronize n st.advance
    else some st

/-- Mirrors Parser.parse_var_decl (parser.cpp lines 265 to 314). -/
def parse_var_decl (fuel : Nat) (st : ParserState) :
    Option (Except ParseError Stmt × ParserState) :=
  match fuel with
  | 0 => Option.none
  | Nat.succ n =>
    match st.consume .KwLet with
    | (.error e, st) => some (.error e, st)
    | (.ok _, st) =>
      let mutFlag := st.current.type = .KwMut
      let st := if st.current.type = .KwMut then st.advance else st
      match parse_identifier st with
      | (.error e, st) => some (.error e, st)
      | (.ok name, st) =>
        match
          (if st.current.type = .Colon then
            match parse_type st.advance with
            | (.error e, st) => (.error e, st)
            | (.ok ty, st) => (.ok (some ty), st)
          else (.ok Option.none, st) :
            Except ParseError (Option Expr) × ParserState)
        with
        | (.error e, st) => some (.error e, st)
        | (.ok tyAnn, st) =>
          if st.current.type = .Assign then
            match parse_expr n 0 st.advance with
            | Option.none => Option.none
            | some (.error e, st) => some (.error e, st)
            | some (.ok init, st) =>
              some (.ok (.varDecl name tyAnn (some init) mutFlag), st)
          else some (.ok (.varDecl name tyAnn Option.none mutFlag), st)

/-- Mirrors Parser.parse_statement_list (parser.cpp lines 227 to 263):
let starts a variable declaration which is retained; newlines and
semicolons are skipped; anything else parses an expression whose result
is discarded (no statement node is appended), consuming a trailing
semicolon when present; parse failures trigger synchronization when
error recovery is enabled. -/
def parse_statement_list_loop (fuel : Nat) (acc : List Stmt)
    (st : ParserState) : Option (Except ParseError (List Stmt) × ParserState) :=
  match fuel with
  | 0 => Option.none
  | Nat.succ n =>
    if st.current.type = .RightBrace ∨ st.is_eof then some (.ok acc, st)
    else if st.current.type = .KwLet then
      match parse_var_decl n st with
      | Option.none => Option.none
      | some (.error e, st) =>
        if st.options.enable_error_recovery then
          match synchronize n st with
          | Option.none => Option.none
          | some st => parse_statement_list_loop n acc st
        else some (.error e, st)
      | some (.ok vd, st) => parse_statement_list_loop n (acc ++ [vd]) st
    else if st.current.type = .Newline ∨ st.current.type = .Semicolon then
      parse_statement_list_loop n acc st.advance
    else
      match parse_expr n 0 st with
      | Option.none => Option.none
      | some (.error e, st) =>
        if st.options.enable_error_recovery then
          match synchronize n st with
          | Option.none => Option.none
          | some st => parse_statement_list_loop n acc st
        else some (.error e, st)
      | some (.ok _, st) =>
        let st := if st.current.type = .Semicolon then st.advance else st
        parse_statement_list_loop n acc st

/-- Mirrors Parser.parse_block (parser.cpp lines 203 to 225). -/
def parse_block (fuel : Nat) (st : ParserState) :
    Option (Except ParseError Stmt × ParserState) :=
  match fuel with
  | 0 => Option.none
  | Nat.succ n =>
    match st.consume .LeftBrace with
    | (.error e, st) => some (.error e, st)
    | (.ok _, st) =>
      match parse_statement_list_loop n [] st with
      | Option.none => Option.none
      | some (.error e, st) => some (.error e, st)
      | some (.ok stmts, st) =>
        match st.consume .RightBrace with
        | (.error e, st) => some (.error e, st)
        | (.ok _, st) => some (.ok (.block stmts), st)

/-- Mirrors the parameter loop of Parser.parse_function_parameters: while
the current token is not a right parenthesis and not end of file, parse a
parameter; a comma is consumed and the loop continues, a right
parenthesis ends the loop, anything else is MissingDelimiter. -/
def parse_function_parameters_loop (fuel : Nat) (acc : List Parameter)
    (st : ParserState) :
    Option (Except ParseError (List Parameter) × ParserState) :=
  match fuel with
  | 0 => Option.none
  | Nat.succ n =>
    if st.current.type = .RightParen ∨ st.is_eof then some (.ok acc, st)
    else
      match parse_parameter st with
      | (.error e, st) => some (.error e, st)
      | (.ok p, st) =>
        let acc := acc ++ [p]
        if st.current.type = .Comma then
          parse_function_parameters_loop n acc st.advance
        else if st.current.type ≠ .RightParen then
          some (.error .MissingDelimiter, st.report_error .MissingDelimiter)
        else parse_function_parameters_loop n acc st

/-- Mirrors Parser.parse_function_parameters (parser.cpp lines 142 to
172). -/
def parse_function_parameters (fuel : Nat) (st : ParserState) :
    Option (Except ParseError (List Parameter) × ParserState) :=
  match fuel with
  | 0 => Option.none
  | Nat.succ n =>
    match st.consume .LeftParen with
    | (.error e, st) => some (.error e, st)
    | (.ok _, st) =>
      match parse_function_parameters_loop n [] st with
      | Option.none => Option.none
      | some (.error e, st) => some (.error e, st)
      | some (.ok params, st) =>
        match st.consume .RightParen with
        | (.error e, st) => some (.error e, st)
        | (.ok _, st) => some (.ok params, st)

/-- Mirrors Parser.parse_function_decl (parser.cpp lines 97 to 140). -/
def parse_function_decl (fuel : Nat) (st : ParserState) :
    Option (Except ParseError FunctionDecl × ParserState) :=
  match fuel with
  | 0 => Option.none
  | Nat.succ n =>
    match st.consume .KwFn with
    | (.error e, st) => some (.error e, st)
    | (.ok _, st) =>
      match parse_identifier st with
      | (.error e, st) => some (.error e, st)
      | (.ok name, st) =>
        match parse_function_parameters n st with
        | Option.none => Option.none
        | some (.error e, st) => some (.error e, st)
        | some (.ok params, st) =>
          match
            (if st.current.type = .Arrow then
              match parse_type st.advance with
              | (.error e, st) => (.error e, st)
              | (.ok ty, st) => (.ok (some ty), st)
            else (.ok Option.none, st) :
              Except ParseError (Option Expr) × ParserState)
          with
          | (.error e, st) => some (.error e, st)
          | (.ok retTy, st) =>
            match parse_block n st with
            | Option.none => Option.none
            | some (.error e, st) => some (.error e, st)
            | some (.ok body, st) =>
              some (.ok { name := name, parameters := params,
                          return_type := retTy, body := body }, st)

/-- Mirrors Parser.parse_declaration (parser.cpp lines 79 to 95). -/
def parse_declaration (fuel : Nat) (st : ParserState) :
    Option (Except ParseError Decl × ParserState) :=
  match fuel with
  | 0 => Option.none
  | Nat.succ n =>
    match st.current.type with
    | .KwFn =>
      match parse_function_decl n st with
      | Option.none => Option.none
      | some (.error e, st) => some (.error e, st)
      | some (.ok f, st) => some (.ok (.functionDecl f), st)
    | _ =>
      some (.error .ExpectedDeclaration, st.report_error .ExpectedDeclaration)

/-- Mirrors Parser.parse_declarations (parser.cpp lines 60 to 77): while
not at end of file and not at a right brace, parse a declaration; on
failure with recovery enabled the parser synchronizes and continues. -/
def parse_declarations_loop (fuel : Nat) (acc : List Decl)
    (st : ParserState) : Option (Except ParseError (List Decl) × ParserState) :=
  match fuel with
  | 0 => Option.none
  | Nat.succ n =>
    if st.is_eof ∨ st.current.type = .RightBrace then some (.ok acc, st)
    else
      match parse_declaration n st with
      | Option.none => Option.none
      | some (.error e, st) =>
        if st.options.enable_error_recovery then
          match synchronize n st with
          | Option.none => Option.none
          | some st => parse_declarations_loop n acc st
        else some (.error e, st)
      | some (.ok d, st) => parse_declarations_loop n (acc ++ [d]) st

/-- Mirrors Parser.parse_program (parser.cpp lines 21 to 33). -/
def parse_program (fuel : Nat) (st : ParserState) :
    Option (Except ParseError Program × ParserState) :=
  match fuel with
  | 0 => Option.none
  | Nat.succ n =>
    match parse_declarations_loop n [] st with
    | Option.none => Option.none
    | some (.error e, st) => some (.error e, st)
    | some (.ok decls, st) => some (.ok { declarations := decls }, st)

/-- Initial parser state over a token list, mirroring the Parser
constructor. -/
def init_state (toks : List Token) (opts : ParserOptions) : ParserState :=
  { tokens := { tokens := toks, position := 0 },
    options := opts,
    recursion_depth := 0,
    errors := [] }

/-- Default parser options (parser.hpp lines 53 to 58). -/
def default_options : ParserOptions := {}

/-- Parser options with error recovery disabled. -/
def no_recovery_options : ParserOptions := { enable_error_recovery := false }

/-- Fuel used for the concrete evaluations; every claim input finishes
far below this bound. -/
def default_fuel : Nat := 200

/-- Mirrors Parser.parse_expression (parser.cpp lines 35 to 37): runs the
Pratt parser with minimum precedence 0 and yields the expression
outcome. -/
def run_parse_expression (toks : List Token) : Option (Except ParseError Expr) :=
  (parse_expr default_fuel 0 (init_state toks default_options)).map
    (fun r => r.1)

/-- Runs parse_program over a token list with the given options and
yields the program outcome. -/
def run_parse_program (opts : ParserOptions) (toks : List Token) :
    Option (Except ParseError Program) :=
  (parse_program default_fuel (init_state toks opts)).map (fun r => r.1)

/-! ## Claim specific scenario definitions -/

/-- Binary operator tokens of the fixed precedence table that
token_to_binary_op translates; the ten compound assignment tokens carry a
precedence but are not translated, so they are not listed here. -/
inductive BinTok where
  | assign | dotDot | dotDotEqual | orOr | andAnd
  | equal | notEqual | spaceship
  | less | greater | lessEqual | greaterEqual
  | pipe | caret | ampersand | leftShift | rightShift
  | plus | minus | star | slash | percent | starStar
deriving DecidableEq, Repr

/-- Token kind of a supported binary operator. -/
def BinTok.tokenType : BinTok → TokenType
  | .assign => .Assign
  | .dotDot => .DotDot
  | .dotDotEqual => .DotDotEqual
  | .orOr => .Or
  | .andAnd => .And
  | .equal => .Equal
  | .notEqual => .NotEqual
  | .spaceship => .Spaceship
  | .less => .Less
  | .greater => .Greater
  | .lessEqual => .LessEqual
  | .greaterEqual => .GreaterEqual
  | .pipe => .Pipe
  | .caret => .Caret
  | .ampersand => .Ampersand
  | .leftShift => .LeftShift
  | .rightShift => .RightShift
  | .plus => .Plus
  | .minus => .Minus
  | .star => .Star
  | .slash => .Slash
  | .percent => .Percent
  | .starStar => .StarStar

/-- AST operator produced for a supported binary operator token. -/
def BinTok.op (o : BinTok) : BinaryOperator :=
  match token_to_binary_op o.tokenType with
  | .ok op => op
  | .error _ => .Add

/-- Payload free token of a given kind. -/
def tok (t : TokenType) : Token := { type := t, value := .none }

/-- Integer literal token with its i64 payload. -/
def int_tok (v : Int) : Token := { type := .IntegerLiteral, value := .intVal v }

/-- Identifier token with its interned string payload. -/
def ident_tok (s : String) : Token :=
  { type := .Identifier, value := .strVal s }

/-- Token sequence of the phrase a o1 b o2 c followed by end of file. -/
def pratt_tokens (a : Int) (o1 : BinTok) (b : Int) (o2 : BinTok) (c : Int) :
    List Token :=
  [int_tok a, tok o1.tokenType, int_tok b, tok o2.tokenType, int_tok c,
   tok .Eof]

/-- Tree demanded by the precedence law: right nested when p1 is below
p2, left nested when p1 is above p2, and by the associativity of the
level when equal. -/
def expected_pratt_tree (a : Int) (o1 : BinTok) (b : Int) (o2 : BinTok)
    (c : Int) : Expr :=
  let p1 := get_precedence o1.tokenType
  let p2 := get_precedence o2.tokenType
  if p1 < p2 then
    .binaryExpr (.integerLiteral a) o1.op
      (.binaryExpr (.integerLiteral b) o2.op (.integerLiteral c))
  else if p2 < p1 then
    .binaryExpr (.binaryExpr (.integerLiteral a) o1.op (.integerLiteral b))
      o2.op (.integerLiteral c)
  else if is_right_associative o1.tokenType then
    .binaryExpr (.integerLiteral a) o1.op
      (.binaryExpr (.integerLiteral b) o2.op (.integerLiteral c))
  else
    .binaryExpr (.binaryExpr (.integerLiteral a) o1.op (.integerLiteral b))
      o2.op (.integerLiteral c)

/-- Token sequence of the declaration fn f(x: T,) {} whose parameter list
ends with a comma directly before the right parenthesis. -/
def trailing_comma_tokens : List Token :=
  [tok .KwFn, ident_tok "f", tok .LeftParen, ident_tok "x", tok .Colon,
   ident_tok "T", tok .Comma, tok .RightParen, tok .LeftBrace,
   tok .RightBrace, tok .Eof]

/-- Token sequence of scenario S1, fn add(a: i32, b: i32) -> i32
{ a + b }, with the token kinds listed in the spec: the lexer keyword
table classifies i32 as the keyword token KwI32. -/
def s1_tokens : List Token :=
  [tok .KwFn, ident_tok "add", tok .LeftParen, ident_tok "a", tok .Colon,
   tok .KwI32, tok .Comma, ident_tok "b", tok .Colon, tok .KwI32,
   tok .RightParen, tok .Arrow, tok .KwI32, tok .LeftBrace, ident_tok "a",
   tok .Plus, ident_tok "b", tok .RightBrace, tok .Eof]

/-- Engine over a fresh arena with the default unlimited error limit. -/
def fresh_engine : DiagnosticEngine := DiagnosticEngine.create MemoryArena.fresh

/-- Sample source location used in the diagnostic scenarios. -/
def sample_loc : SourceLocation := { filename := "test.pht", line := 1, column := 1 }

/-- Engine state after DiagnosticBuilder emit is called explicitly on a
fresh engine and the builder is then destroyed: the scenario of the
exactly once claim. -/
def builder_after_emit : (Bool × DiagnosticEngine) × DiagnosticBuilder :=
  (make_error 2001 "unexpected token" sample_loc).emit fresh_engine

/-- Final engine after the explicit emit and the destructor run. -/
def builder_scenario : DiagnosticEngine :=
  builder_after_emit.2.destruct builder_after_emit.1.2

/-! ## Integer payload substitution
The parser never inspects the value of an integer literal payload; it only
moves it into the produced IntegerLiteral node.  The following renaming
machinery makes that observation a lemma: parsing commutes with any
substitution of the integer payloads.  The precedence law for arbitrary
integer literals then follows from the law at three fixed marker
payloads. -/

/-- Renames the integer payload of a token value. -/
def subst_value (σ : Int → Int) : TokenValue → TokenValue
  | .intVal v => .intVal (σ v)
  | v => v

/-- Renames the integer payload of a token. -/
def subst_token (σ : Int → Int) (t : Token) : Token :=
  { type := t.type, value := subst_value σ t.value }

mutual

/-- Renames every integer literal payload inside an expression. -/
def subst_expr (σ : Int → Int) : Expr → Expr
  | .integerLiteral v => .integerLiteral (σ v)
  | .stringLiteral s => .stringLiteral s
  | .boolLiteral b => .boolLiteral b
  | .identifier n => .identifier n
  | .binaryExpr l op r => .binaryExpr (subst_expr σ l) op (subst_expr σ r)
  | .unaryExpr op e => .unaryExpr op (subst_expr σ e)
  | .callExpr f args => .callExpr (subst_expr σ f) (subst_expr_list σ args)

/-- Renames every integer literal payload inside an expression list. -/
def subst_expr_list (σ : Int → Int) : List Expr → List Expr
  | [] => []
  | e :: es => subst_expr σ e :: subst_expr_list σ es

end

/-- Renames the integer payloads of every token in a stream, keeping the
cursor position. -/
def subst_stream (σ : Int → Int) (ts : TokenStream) : TokenStream :=
  { tokens := ts.tokens.map (subst_token σ), position := ts.position }

/-- Renames the integer payloads of every token in a parser state. -/
def subst_state (σ : Int → Int) (st : ParserState) : ParserState :=
  { st with tokens := subst_stream σ st.tokens }

/-- Renames the payloads inside an expression parse outcome. -/
def subst_res (σ : Int → Int) :
    Option (Except ParseError Expr × ParserState) →
    Option (Except ParseError Expr × ParserState) :=
  Option.map (fun r => (r.1.map (subst_expr σ), subst_state σ r.2))

/-- Renames the payloads inside an argument list parse outcome. -/
def subst_res_list (σ : Int → Int) :
    Option (Except ParseError (List Expr) × ParserState) →
    Option (Except ParseError (List Expr) × ParserState) :=
  Option.map (fun r => (r.1.map (List.map (subst_expr σ)), subst_state σ r.2))

/-- Substitution sending the three marker payloads 0, 1 and 2 to the
three given integers. -/
def marker_subst (a b c : Int) : Int → Int :=
  fun v => if v = 0 then a else if v = 1 then b else c

/-! ## Lemmas: payload substitution commutes with the token interface -/

/-- Substitution keeps the token kind. -/
theorem subst_token_type (σ : Int → Int) (t : Token) :
    (subst_token σ t).type = t.type := rfl

/-- Substitution keeps the string payload. -/
theorem subst_token_text (σ : Int → Int) (t : Token) :
    (subst_token σ t).text = t.text := by
  rcases t with ⟨ty, v⟩
  cases v <;> rfl

/-- Substitution fixes the end of file token. -/
theorem subst_token_eof (σ : Int → Int) :
    subst_token σ eof_token = eof_token := rfl

/-- Substitution commutes with the stream cursor read. -/
theorem subst_stream_current (σ : Int → Int) (ts : TokenStream) :
    (subst_stream σ ts).current = subst_token σ ts.current := by
  unfold TokenStream.current subst_stream
  by_cases h : ts.position < ts.tokens.length
  · rw [dif_pos (by simpa using h), dif_pos h]
    simp
  · rw [dif_neg (by simpa using h), dif_neg h]
    rfl

/-- Substitution commutes with the parser state cursor read. -/
theorem subst_state_current (σ : Int → Int) (st : ParserState) :
    (subst_state σ st).current = subst_token σ st.current :=
  subst_stream_current σ st.tokens

/-- Substitution commutes with advancing the stream. -/
theorem subst_stream_advance (σ : Int → Int) (ts : TokenStream) :
    (subst_stream σ ts).advance = subst_stream σ ts.advance := by
  unfold TokenStream.advance subst_stream
  by_cases h : ts.position < ts.tokens.length
  · rw [if_pos (by simpa using h), if_pos h]
  · rw [if_neg (by simpa using h), if_neg h]

/-- Substitution commutes with advancing the parser. -/
theorem subst_state_advance (σ : Int → Int) (st : ParserState) :
    (subst_state σ st).advance = subst_state σ st.advance := by
  unfold ParserState.advance subst_state
  simp [subst_stream_advance]

/-- Substitution does not change the end of file test. -/
theorem subst_state_is_eof (σ : Int → Int) (st : ParserState) :
    (subst_state σ st).is_eof = st.is_eof := by
  have hc : (subst_state σ st).tokens.current.type = st.tokens.current.type := by
    rw [show (subst_state σ st).tokens = subst_stream σ st.tokens from rfl,
        subst_stream_current, subst_token_type]
  unfold ParserState.is_eof TokenStream.is_eof
  rw [hc]
  simp [subst_state, subst_stream]

/-- Substitution does not change the synchronization point test. -/
theorem subst_state_sync_point (σ : Int → Int) (st : ParserState) :
    (subst_state σ st).is_synchronization_point = st.is_synchronization_point := by
  unfold ParserState.is_synchronization_point
  rw [subst_state_current]
  rfl

/-- Substitution commutes with report_error. -/
theorem subst_state_report_error (σ : Int → Int) (st : ParserState)
    (e : ParseError) :
    (subst_state σ st).report_error e = subst_state σ (st.report_error e) := rfl

/-- Substitution commutes with enter_recursion. -/
theorem subst_state_enter (σ : Int → Int) (st : ParserState) :
    (subst_state σ st).enter_recursion =
      ((st.enter_recursion).1, subst_state σ (st.enter_recursion).2) := by
  by_cases h : st.recursion_depth ≥ st.options.max_recursion_depth <;>
    simp [ParserState.enter_recursion, subst_state, h]

/-- Substitution commutes with exit_recursion. -/
theorem subst_state_exit (σ : Int → Int) (st : ParserState) :
    (subst_state σ st).exit_recursion = subst_state σ st.exit_recursion := by
  by_cases h : st.recursion_depth > 0 <;>
    simp [ParserState.exit_recursion, subst_state, h]

/-- Substitution commutes with consume. -/
theorem subst_state_consume (σ : Int → Int) (st : ParserState)
    (expected : TokenType) :
    (subst_state σ st).consume expected =
      ((st.consume expected).1.map (subst_token σ),
       subst_state σ (st.consume expected).2) := by
  by_cases h : st.current.type = expected <;>
    simp [ParserState.consume, subst_state_current, subst_token_type, h,
          Except.map, subst_state_advance, subst_state_report_error]

/-- Substitution commutes with parse_literal. -/
theorem parse_literal_subst (σ : Int → Int) (st : ParserState) :
    parse_literal (subst_state σ st) =
      ((parse_literal st).1.map (subst_expr σ),
       subst_state σ (parse_literal st).2) := by
  unfold parse_literal
  rw [subst_state_current, subst_state_advance]
  rcases hc : st.current with ⟨ty, v⟩
  cases ty <;> cases v <;>
    simp [subst_token, subst_value, subst_expr, Except.map,
          subst_state_report_error]

/-- Substitution commutes with parse_identifier. -/
theorem parse_identifier_subst (σ : Int → Int) (st : ParserState) :
    parse_identifier (subst_state σ st) =
      ((parse_identifier st).1, subst_state σ (parse_identifier st).2) := by
  by_cases h : st.current.type = .Identifier <;>
    simp [parse_identifier, subst_state_current, subst_token_type, h,
          subst_state_advance, subst_token_text, subst_state_report_error]

/-- The list version of the substitution agrees with List.map. -/
theorem subst_expr_list_eq_map (σ : Int → Int) (l : List Expr) :
    subst_expr_list σ l = l.map (subst_expr σ) := by
  induction l with
  | nil => rfl
  | cons e es ih => simp [subst_expr_list, subst_expr, ih]

/-- Parsing commutes with payload substitution: at every fuel level, every
function of the expression parser group maps renamed input to the renamed
outcome, because no branch of the parser inspects an integer payload. -/
theorem expr_parsers_subst (σ : Int → Int) (n : Nat) :
    (∀ mp st, (expr_parsers n).expr mp (subst_state σ st) =
      subst_res σ ((expr_parsers n).expr mp st)) ∧
    (∀ mp left st,
      (expr_parsers n).expr_loop mp (subst_expr σ left) (subst_state σ st) =
        subst_res σ ((expr_parsers n).expr_loop mp left st)) ∧
    (∀ st, (expr_parsers n).primary (subst_state σ st) =
      subst_res σ ((expr_parsers n).primary st)) ∧
    (∀ left st,
      (expr_parsers n).postfix_loop (subst_expr σ left) (subst_state σ st) =
        subst_res σ ((expr_parsers n).postfix_loop left st)) ∧
    (∀ callee st,
      (expr_parsers n).call_expr (subst_expr σ callee) (subst_state σ st) =
        subst_res σ ((expr_parsers n).call_expr callee st)) ∧
    (∀ st, (expr_parsers n).call_arguments (subst_state σ st) =
      subst_res_list σ ((expr_parsers n).call_arguments st)) ∧
    (∀ acc st,
      (expr_parsers n).call_arguments_loop (acc.map (subst_expr σ))
          (subst_state σ st) =
        subst_res_list σ ((expr_parsers n).call_arguments_loop acc st)) := by
  induction n with
  | zero =>
    exact ⟨fun _ _ => rfl, fun _ _ _ => rfl, fun _ => rfl, fun _ _ => rfl,
           fun _ _ => rfl, fun _ => rfl, fun _ _ => rfl⟩
  | succ n ih =>
    obtain ⟨ihe, ihl, ihp, ihpost, ihce, ihca, ihcal⟩ := ih
    refine ⟨?_, ?_, ?_, ?_, ?_, ?_, ?_⟩
    · -- expr
      intro mp st
      simp only [expr_parsers, exprParsersStep]
      rw [subst_state_enter]
      rcases he : st.enter_recursion with ⟨r, st1⟩
      cases r with
      | error e => simp [subst_res, Option.map, Except.map]
      | ok u =>
        dsimp only
        rw [ihp st1]
        rcases hp : (expr_parsers n).primary st1 with _ | ⟨rp, st2⟩
        · rfl
        · cases rp with
          | error e => simp [subst_res, Option.map, Except.map, subst_state_exit]
          | ok left =>
            simp only [subst_res, Option.map, Except.map]
            rw [ihl mp left st2]
            rcases hl : (expr_parsers n).expr_loop mp left st2 with _ | ⟨rl, st3⟩
            · rfl
            · cases rl with
              | error e => simp [subst_res, Option.map, Except.map, subst_state_exit]
              | ok left2 =>
                simp only [subst_res, Option.map, Except.map]
                rw [ihpost left2 st3]
                rcases hq : (expr_parsers n).postfix_loop left2 st3 with _ | ⟨rq, st4⟩
                · rfl
                · simp [subst_res, Option.map, Except.map, subst_state_exit]
    · -- expr_loop
      intro mp left st
      simp only [expr_parsers, exprParsersStep]
      rw [subst_state_is_eof]
      by_cases heof : st.is_eof
      · simp [heof, subst_res, Option.map, Except.map]
      · rw [if_neg heof, if_neg heof]
        rw [subst_state_current, subst_token_type]
        by_cases hprec : get_precedence st.current.type < mp
        · simp [hprec, subst_res, Option.map, Except.map]
        · rw [if_neg hprec, if_neg hprec]
          rw [subst_state_advance]
          rw [ihe _ st.advance]
          rcases hr : (expr_parsers n).expr
              (if is_right_associative st.current.type then
                get_precedence st.current.type
              else get_precedence st.current.type + 1) st.advance
            with _ | ⟨rr, st2⟩
          · rfl
          · cases rr with
            | error e => simp [subst_res, Option.map, Except.map]
            | ok right =>
              simp only [subst_res, Option.map, Except.map]
              rcases hb : token_to_binary_op st.current.type with e | op
              · simp
              · dsimp only
                have hbe : Expr.binaryExpr (subst_expr σ left) op
                    (subst_expr σ right) =
                    subst_expr σ (.binaryExpr left op right) := rfl
                rw [hbe, ihl mp (.binaryExpr left op right) st2]
                rfl
    · -- primary
      intro st
      simp only [expr_parsers, exprParsersStep]
      rw [subst_state_current]
      rcases hc : st.current with ⟨ty, v⟩
      have hty : (subst_token σ { type := ty, value := v }).type = ty := rfl
      cases ty
      case IntegerLiteral | StringLiteral | BoolLiteral =>
        dsimp only [subst_token, subst_value]
        rw [show parse_literal (subst_state σ st) =
              ((parse_literal st).1.map (subst_expr σ),
               subst_state σ (parse_literal st).2) from parse_literal_subst σ st]
        rcases parse_literal st with ⟨r, st2⟩
        cases r <;> simp [subst_res, Except.map]
      case Identifier =>
        dsimp only [subst_token, subst_value]
        rw [parse_identifier_subst]
        rcases parse_identifier st with ⟨r, st2⟩
        cases r <;> simp [subst_res, Except.map, subst_expr]
      case LeftParen =>
        dsimp only [subst_token, subst_value]
        rw [subst_state_advance, ihe 0 st.advance]
        rcases hr : (expr_parsers n).expr 0 st.advance with _ | ⟨rr, st2⟩
        · rfl
        · cases rr with
          | error e => simp [subst_res, Option.map, Except.map]
          | ok e =>
            simp only [subst_res, Option.map, Except.map]
            rw [subst_state_consume]
            rcases st2.consume .RightParen with ⟨rc, st3⟩
            cases rc <;> simp [subst_res, Except.map]
      case Plus | Minus | Not | Tilde | Ampersand | Star =>
        dsimp only [subst_token, subst_value]
        rw [subst_state_advance, ihe 140 st.advance]
        rcases hr : (expr_parsers n).expr 140 st.advance with _ | ⟨rr, st2⟩
        · rfl
        · cases rr <;>
            simp [token_to_unary_op, subst_res, Option.map, Except.map,
                  subst_expr]
      all_goals
        simp [subst_state_report_error, subst_res, Except.map, subst_token,
              subst_value]
    · -- postfix_loop
      intro left st
      simp only [expr_parsers, exprParsersStep]
      rw [subst_state_is_eof]
      by_cases heof : st.is_eof
      · simp [heof, subst_res, Option.map, Except.map]
      · rw [if_neg heof, if_neg heof]
        rw [subst_state_current, subst_token_type]
        cases hcty : st.current.type <;>
          first
          | (dsimp only
             rw [ihce left st]
             rcases hr : (expr_parsers n).call_expr left st with _ | ⟨rr, st2⟩
             · rfl
             · cases rr with
               | error e => simp [subst_res, Option.map, Except.map]
               | ok call =>
                 simp only [subst_res, Option.map, Except.map]
                 exact ihpost call st2)
          | simp [subst_res, Option.map, Except.map]
    · -- call_expr
      intro callee st
      simp only [expr_parsers, exprParsersStep]
      rw [ihca st]
      rcases hr : (expr_parsers n).call_arguments st with _ | ⟨rr, st2⟩
      · rfl
      · cases rr <;>
          simp [subst_res, subst_res_list, Option.map, Except.map, subst_expr,
                subst_expr_list_eq_map]
    · -- call_arguments
      intro st
      simp only [expr_parsers, exprParsersStep]
      rw [subst_state_consume]
      rcases hc : st.consume .LeftParen with ⟨rc, st1⟩
      cases rc with
      | error e => simp [subst_res_list, Option.map, Except.map]
      | ok t =>
        simp only [Except.map]
        have hcal0 := ihcal [] st1
        simp only [List.map_nil] at hcal0
        rw [hcal0]
        rcases hr : (expr_parsers n).call_arguments_loop [] st1 with _ | ⟨rr, st2⟩
        · rfl
        · cases rr with
          | error e => simp [subst_res_list, Option.map, Except.map]
          | ok args =>
            simp only [subst_res_list, Option.map, Except.map]
            rw [subst_state_consume]
            rcases st2.consume .RightParen with ⟨rc2, st3⟩
            cases rc2 <;> simp [subst_res_list, Except.map]
    · -- call_arguments_loop
      intro acc st
      simp only [expr_parsers, exprParsersStep]
      rw [subst_state_current, subst_token_type, subst_state_is_eof]
      by_cases hstop : st.current.type = .RightParen ∨ st.is_eof
      · simp [hstop, subst_res_list, Option.map, Except.map]
      · rw [if_neg hstop, if_neg hstop]
        rw [ihe 0 st]
        rcases hr : (expr_parsers n).expr 0 st with _ | ⟨rr, st2⟩
        · rfl
        · cases rr with
          | error e => simp [subst_res, subst_res_list, Option.map, Except.map]
          | ok arg =>
            simp only [subst_res, Option.map, Except.map]
            rw [subst_state_current, subst_token_type]
            by_cases hcomma : st2.current.type = .Comma
            · rw [if_pos hcomma, if_pos hcomma, subst_state_advance]
              have hmap : acc.map (subst_expr σ) ++ [subst_expr σ arg] =
                  (acc ++ [arg]).map (subst_expr σ) := by simp
              rw [hmap]
              exact ihcal (acc ++ [arg]) st2.advance
            · rw [if_neg hcomma, if_neg hcomma]
              by_cases hrp : st2.current.type = .RightParen
              · simp only [hrp]
                have hmap : acc.map (subst_expr σ) ++ [subst_expr σ arg] =
                    (acc ++ [arg]).map (subst_expr σ) := by simp
                rw [hmap]
                simp only [ne_eq, not_true_eq_false, if_false]
                exact ihcal (acc ++ [arg]) st2
              · simp [hrp, subst_res_list, Option.map, Except.map, subst_state_report_error]

/-! ## The Pratt precedence law -/

set_option maxRecDepth 100000

/-- Precedence law at the three marker payloads 0, 1 and 2, settled by
evaluating the embedded parser for every pair of supported operator
tokens. -/
theorem pratt_marker (o1 o2 : BinTok) :
    run_parse_expression (pratt_tokens 0 o1 1 o2 2) =
      some (.ok (expected_pratt_tree 0 o1 1 o2 2)) := by
  cases o1 <;> cases o2 <;> rfl

/-- Projecting the expression out of a renamed outcome renames the
projected expression. -/
theorem subst_res_map_fst (σ : Int → Int)
    (x : Option (Except ParseError Expr × ParserState)) :
    (subst_res σ x).map (fun r => r.1) =
      (x.map (fun r => r.1)).map (Except.map (subst_expr σ)) := by
  rcases x with _ | ⟨r, st⟩ <;> rfl

/-- The marker tokens rename to the tokens of any three integer
literals. -/
theorem pratt_tokens_subst (a b c : Int) (o1 o2 : BinTok) :
    (pratt_tokens 0 o1 1 o2 2).map (subst_token (marker_subst a b c)) =
      pratt_tokens a o1 b o2 c := by
  simp [pratt_tokens, subst_token, subst_value, int_tok, tok, marker_subst]

/-- The expected tree at the marker payloads renames to the expected tree
at any three integer literals. -/
theorem expected_pratt_tree_subst (a b c : Int) (o1 o2 : BinTok) :
    subst_expr (marker_subst a b c) (expected_pratt_tree 0 o1 1 o2 2) =
      expected_pratt_tree a o1 b o2 c := by
  unfold expected_pratt_tree
  by_cases h1 : get_precedence o1.tokenType < get_precedence o2.tokenType <;>
    by_cases h2 : get_precedence o2.tokenType < get_precedence o1.tokenType <;>
    by_cases h3 : is_right_associative o1.tokenType = true <;>
    simp [h1, h2, h3, subst_expr, marker_subst]

/-- Claim C1, amended: for any three integer literals and any two binary
operator tokens that token_to_binary_op supports (every operator of the
fixed precedence table except the ten compound assignment tokens),
parse_expression on the token sequence of a o1 b o2 c followed by end of
file yields exactly the tree demanded by the precedence climbing rule:
right nested when p1 is below p2, left nested when p1 is above p2, and by
the associativity of the operator level when the precedences are equal;
the embedded parse_expr implements the climbing rule by parsing the right
hand side of an operator of precedence p with minimum precedence p when
the operator is right associative and p plus one otherwise. -/
theorem pratt_precedence_law (a b c : Int) (o1 o2 : BinTok) :
    run_parse_expression (pratt_tokens a o1 b o2 c) =
      some (.ok (expected_pratt_tree a o1 b o2 c)) := by
  have hm := pratt_marker o1 o2
  have hsub := (expr_parsers_subst (marker_subst a b c) default_fuel).1 0
    (init_state (pratt_tokens 0 o1 1 o2 2) default_options)
  have hst : subst_state (marker_subst a b c)
      (init_state (pratt_tokens 0 o1 1 o2 2) default_options) =
      init_state (pratt_tokens a o1 b o2 c) default_options := by
    simp [subst_state, subst_stream, init_state, pratt_tokens_subst]
  unfold run_parse_expression parse_expr at hm ⊢
  rw [← hst, hsub, subst_res_map_fst, hm]
  simp [Except.map, expected_pratt_tree_subst]

/-- Claim C1, counterexample to the original wording: the compound
assignment operator += carries precedence 10 in the fixed table and + has
precedence 110, so the claim demands that 1 += 2 + 3 parse as
1 += (2 + 3); the parser instead fails with ExpectedOperator because
token_to_binary_op does not translate PlusAssign. -/
theorem pratt_precedence_law_counterexample :
    run_parse_expression
        [int_tok 1, tok .PlusAssign, int_tok 2, tok .Plus, int_tok 3,
         tok .Eof] =
      some (.error .ExpectedOperator) := by
  rfl

/-! ## Diagnostics engine claims -/

/-- Claim C2, divergence witness: DiagnosticEngine.fatal on an engine
where should_stop_compilation is false stores true into fatal_encountered
before calling report, so report rejects the fatal diagnostic itself: the
call returns false and fatal_encountered is set as claimed, but the
diagnostic is not appended and errors is not incremented, contradicting
the claim and the test DiagnosticEngineTest.FatalErrorStopsCompilation
(diagnostic_test.cpp lines 185 to 192). -/
theorem fatal_discards_own_diagnostic :
    (fresh_engine.fatal 9000 "internal compiler error" sample_loc).1 = false ∧
    (fresh_engine.fatal 9000 "internal compiler error" sample_loc).2.diagnostics = [] ∧
    (fresh_engine.fatal 9000 "internal compiler error" sample_loc).2.error_count = 0 ∧
    (fresh_engine.fatal 9000 "internal compiler error" sample_loc).2.fatal_encountered = true ∧
    (fresh_engine.fatal 9000 "internal compiler error" sample_loc).2.should_stop_compilation = true :=
  ⟨rfl, rfl, rfl, rfl, rfl⟩

/-- Claim C5, divergence witness: DiagnosticBuilder.emit does not set the
emitted flag, so a builder whose emit was called explicitly emits again
when it is destroyed; the engine receives the same diagnostic twice and
counts two errors, contradicting the exactly once claim. -/
theorem builder_emits_twice_after_explicit_emit :
    builder_scenario.diagnostics =
      [(make_error 2001 "unexpected token" sample_loc).diagnostic,
       (make_error 2001 "unexpected token" sample_loc).diagnostic] ∧
    builder_scenario.error_count = 2 :=
  ⟨rfl, rfl⟩

/-- Claim C9: DiagnosticEngine.clear resets the externally supplied
shared arena in addition to the engine state: whatever other components
allocated there, the arena is rewound to one block with zero bytes used,
so every allocation living in that arena is invalidated; the engine
storage and counters are cleared as well. -/
theorem clear_resets_shared_arena (e : DiagnosticEngine)
    (h : 0 < e.arena.block_count) :
    e.clear.arena = e.arena.reset ∧
    e.clear.arena.bytes_used = 0 ∧
    e.clear.arena.block_count = 1 ∧
    e.clear.diagnostics = [] ∧
    e.clear.error_count = 0 ∧
    e.clear.fatal_encountered = false := by
  have hne : e.arena.block_count ≠ 0 := by omega
  refine ⟨rfl, ?_, ?_, rfl, rfl, rfl⟩ <;>
    simp [DiagnosticEngine.clear, MemoryArena.reset, hne]

/-- Claim C9 witness: a concrete engine over an arena with two blocks and
nonzero usage is wiped by clear. -/
theorem clear_resets_shared_arena_witness :
    0 < (2 : Nat) ∧
    ({ fresh_engine with
        arena := { block_count := 2, current_pos := 1049600,
                   block_end := 2163712, bytes_used := 1024,
                   total_allocated := 4096 } } : DiagnosticEngine).clear.arena.bytes_used = 0 :=
  ⟨by decide,
   (clear_resets_shared_arena
     { fresh_engine with
       arena := { block_count := 2, current_pos := 1049600,
                  block_end := 2163712, bytes_used := 1024,
                  total_allocated := 4096 } } (by decide)).2.1⟩

/-! ## Arena claim -/

/-- Claim C6, divergence witness: allocate with alignment 0 is not
rejected.  The power of two check (alignment AND (alignment minus one))
evaluates to 0 for alignment 0 because the subtraction wraps in usize
arithmetic, so the call proceeds; align_pointer then collapses the
address to 0 and the allocation succeeds, returning pointer 0, where the
claim, the documentation (arena.hpp lines 69 to 76) and the test
ArenaTest.InvalidAlignmentThrows (arena_test.cpp line 198) demand an
InvalidRequest failure. -/
theorem allocate_zero_alignment_not_rejected :
    MemoryArena.fresh.allocate 1 0 =
      .ok (0, { block_count := 1, current_pos := 1,
                block_end := 1114112, bytes_used := 1,
                total_allocated := 1 }) := by
  rfl

/-! ## Parser claims -/

/-- Claim C7, divergence witness: the declaration fn f(x: T,) {} whose
parameter list ends with a comma directly before the right parenthesis
parses successfully into a FunctionDecl, where the spec and the test
DeclarationTest.FunctionWithTrailingCommaInParameters
(test_declarations.cpp lines 417 to 423) demand a failure: after the
comma is consumed the loop re-checks its guard, sees the right
parenthesis and exits without any rejection. -/
theorem trailing_comma_parameters_accepted :
    run_parse_program default_options trailing_comma_tokens =
      some (.ok { declarations :=
        [.functionDecl { name := "f",
                         parameters := [{ name := "x", type := .identifier "T" }],
                         return_type := Option.none,
                         body := .block [] }] }) := by
  rfl

/-- Claim C8, divergence witness: parsing the token sequence of scenario
S1, fn add(a: i32, b: i32) -> i32 { a + b }, fails with
ExpectedIdentifier instead of producing the expected FunctionDecl,
because the lexer classifies i32 as the keyword token KwI32 while
parse_type accepts only an Identifier token (with error recovery enabled
the declaration loop then synchronizes onto the left brace and loops
forever, which the fuelled model reports as fuel exhaustion). -/
theorem s1_parse_fails_expected_identifier :
    run_parse_program no_recovery_options s1_tokens =
      some (.error .ExpectedIdentifier) := by
  rfl

/-! ## Token stream claim -/

/-- Claim C10: the TokenStream cursor is total at the public interface:
current and peek return the end of file token whenever the index is at or
past the number of stored tokens, advance at or past the end leaves the
position unchanged, and seek clamps the requested position to the stream
size. -/
theorem token_stream_cursor_total (ts : TokenStream) (k p : Nat) :
    (ts.tokens.length ≤ ts.position → ts.current = eof_token) ∧
    (ts.tokens.length ≤ ts.position + k → ts.peek k = eof_token) ∧
    (ts.tokens.length ≤ ts.position → ts.advance.position = ts.position) ∧
    (ts.seek p).position = min p ts.tokens.length := by
  refine ⟨?_, ?_, ?_, rfl⟩ <;> intro h
  · have hn : ¬ ts.position < ts.tokens.length := by omega
    simp [TokenStream.current, hn]
  · have hn : ¬ ts.position + k < ts.tokens.length := by omega
    simp [TokenStream.peek, hn]
  · have hn : ¬ ts.position < ts.tokens.length := by omega
    simp [TokenStream.advance, hn]

/-- Claim C10 witness: a stream of one token with the cursor at or past
the end behaves as the theorem states on concrete inputs. -/
theorem token_stream_cursor_total_witness :
    (TokenStream.mk [tok .Plus] 1).current = eof_token ∧
    (TokenStream.mk [tok .Plus] 1).advance.position = 1 ∧
    ((TokenStream.mk [tok .Plus] 1).seek 7).position = 1 := by
  have h := token_stream_cursor_total (TokenStream.mk [tok .Plus] 1) 0 7
  exact ⟨h.1 (by decide), h.2.2.1 (by decide), h.2.2.2.trans (by decide)⟩

/-! ## Source position round trip -/

/-- The upper bound index never exceeds the list length. -/
theorem upper_bound_le_length (l : List Nat) (o : Nat) :
    upper_bound l o ≤ l.length := by
  induction l with
  | nil => simp [upper_bound]
  | cons x xs ih =>
    by_cases h : o < x
    · simp [upper_bound, h]
    · simp [upper_bound, h]
      omega

/-- The element just before the upper bound index is at most the probe. -/
theorem upper_bound_pred_le (l : List Nat) (o : Nat)
    (h : 1 ≤ upper_bound l o) : l.getD (upper_bound l o - 1) 0 ≤ o := by
  induction l with
  | nil => simp [upper_bound] at h
  | cons x xs ih =>
    by_cases hx : o < x
    · simp [upper_bound, hx] at h
    · simp only [upper_bound, if_neg hx, Nat.add_sub_cancel]
      rcases Nat.eq_zero_or_pos (upper_bound xs o) with h0 | hpos
      · simp [h0]
        omega
      · have hub : upper_bound xs o = upper_bound xs o - 1 + 1 := by omega
        rw [hub, List.getD_cons_succ]
        exact ih hpos

/-- The element at the upper bound index, when it exists, is above the
probe. -/
theorem lt_upper_bound_getD (l : List Nat) (o : Nat)
    (h : upper_bound l o < l.length) : o < l.getD (upper_bound l o) 0 := by
  induction l with
  | nil => simp [upper_bound] at h
  | cons x xs ih =>
    by_cases hx : o < x
    · simp [upper_bound, hx]
    · simp only [upper_bound, if_neg hx, List.getD_cons_succ]
      simp only [upper_bound, if_neg hx, List.length_cons] at h
      exact ih (by omega)

/-- Claim C3: source position round trip.  For every content and every
byte offset o with o at most the content size, offset_to_line_column
succeeds, and feeding the resulting line and column into
line_column_to_offset returns exactly o. -/
theorem source_round_trip (content : List Nat) (offset : Nat)
    (h : offset ≤ content.length) :
    ∃ lc : Nat × Nat,
      offset_to_line_column content offset = .ok lc ∧
      line_column_to_offset content lc.1 lc.2 = .ok offset := by
  have hub1 : upper_bound (line_starts content) offset ≠ 0 := by
    simp [line_starts, upper_bound]
  have hle := upper_bound_le_length (line_starts content) offset
  have hpred := upper_bound_pred_le (line_starts content) offset (by omega)
  refine ⟨(upper_bound (line_starts content) offset,
           offset - (line_starts content).getD
             (upper_bound (line_starts content) offset - 1) 0 + 1), ?_, ?_⟩
  · unfold offset_to_line_column
    rw [if_neg (by omega)]
    simp only []
    rw [if_neg hub1]
  · unfold line_column_to_offset
    rw [if_neg (by omega)]
    simp only []
    by_cases hlt : upper_bound (line_starts content) offset <
        (line_starts content).length
    · have hgt := lt_upper_bound_getD (line_starts content) offset hlt
      rw [if_pos hlt]
      rw [if_neg (by omega)]
      congr 1
      omega
    · rw [if_neg hlt]
      rw [if_neg (by omega)]
      congr 1
      omega

/-- Claim C3 witness: the content ab LF c at offset 3 maps to line 2
column 1 and back to offset 3. -/
theorem source_round_trip_witness :
    3 ≤ ([97, 98, 10, 99] : List Nat).length ∧
    ∃ lc : Nat × Nat,
      offset_to_line_column [97, 98, 10, 99] 3 = .ok lc ∧
      line_column_to_offset [97, 98, 10, 99] lc.1 lc.2 = .ok 3 :=
  ⟨by decide, source_round_trip [97, 98, 10, 99] 3 (by decide)⟩

/-! ## UTF-8 validator -/

/-- A byte whose masked value equals a mask with the top bit set is not
an ASCII byte. -/
theorem not_ascii_of_masked (b m v : Nat) (hb : b &&& m = v)
    (hv : 0x80 ≤ v) : ¬ b < 0x80 := by
  have hle : b &&& m ≤ b := Nat.and_le_left
  omega

/-- A four byte lead is not classified as a two byte lead. -/
theorem four_not_two (b : Nat) (hb : b &&& 0xF8 = 0xF0) :
    ¬ b &&& 0xE0 = 0xC0 := by
  have h : b &&& 0xE0 = (b &&& 0xF8) &&& 0xE0 := by
    rw [Nat.and_assoc, (by decide : (0xF8 &&& 0xE0 : Nat) = 0xE0)]
  rw [h, hb]
  decide

/-- A four byte lead is not classified as a three byte lead. -/
theorem four_not_three (b : Nat) (hb : b &&& 0xF8 = 0xF0) :
    ¬ b &&& 0xF0 = 0xE0 := by
  have h : b &&& 0xF0 = (b &&& 0xF8) &&& 0xF0 := by
    rw [Nat.and_assoc, (by decide : (0xF8 &&& 0xF0 : Nat) = 0xF0)]
  rw [h, hb]
  decide

/-- A three byte lead is not classified as a two byte lead. -/
theorem three_not_two (b : Nat) (hb : b &&& 0xF0 = 0xE0) :
    ¬ b &&& 0xE0 = 0xC0 := by
  have h : b &&& 0xE0 = (b &&& 0xF0) &&& 0xE0 := by
    rw [Nat.and_assoc, (by decide : (0xF0 &&& 0xE0 : Nat) = 0xE0)]
  rw [h, hb]
  decide

/-- Soundness of the validator at bounded length: an accepted sequence
decomposes into loose units. -/
theorem validate_utf8_sound (n : Nat) :
    ∀ bs : List Nat, bs.length ≤ n → validate_utf8 bs = true →
      LooseUtf8 bs := by
  induction n with
  | zero =>
    intro bs hl _
    have hnil : bs = [] := List.length_eq_zero.mp (by omega)
    subst hnil
    exact .nil
  | succ n ih =>
    intro bs hl hv
    match bs with
    | [] => exact .nil
    | b :: rest =>
      simp only [validate_utf8] at hv
      by_cases h1 : b < 0x80
      · rw [if_pos h1] at hv
        exact .ascii b rest h1 (ih rest (by simp at hl; omega) hv)
      · rw [if_neg h1] at hv
        by_cases h2 : b &&& 0xE0 = 0xC0
        · rw [if_pos h2] at hv
          match rest with
          | [] => exact Bool.noConfusion hv
          | b1 :: rest1 =>
            simp only [validate_cont1] at hv
            by_cases hc1 : b1 &&& 0xC0 = 0x80
            · rw [if_pos hc1] at hv
              exact .two b b1 rest1 h2 hc1
                (ih rest1 (by simp at hl; omega) hv)
            · rw [if_neg hc1] at hv
              exact Bool.noConfusion hv
        · rw [if_neg h2] at hv
          by_cases h3 : b &&& 0xF0 = 0xE0
          · rw [if_pos h3] at hv
            match rest with
            | [] => exact Bool.noConfusion hv
            | b1 :: rest1 =>
              simp only [validate_cont2] at hv
              by_cases hc1 : b1 &&& 0xC0 = 0x80
              · rw [if_pos hc1] at hv
                match rest1 with
                | [] => exact Bool.noConfusion hv
                | b2 :: rest2 =>
                  simp only [validate_cont1] at hv
                  by_cases hc2 : b2 &&& 0xC0 = 0x80
                  · rw [if_pos hc2] at hv
                    exact .three b b1 b2 rest2 h3 hc1 hc2
                      (ih rest2 (by simp at hl; omega) hv)
                  · rw [if_neg hc2] at hv
                    exact Bool.noConfusion hv
              · rw [if_neg hc1] at hv
                exact Bool.noConfusion hv
          · rw [if_neg h3] at hv
            by_cases h4 : b &&& 0xF8 = 0xF0
            · rw [if_pos h4] at hv
              match rest with
              | [] => exact Bool.noConfusion hv
              | b1 :: rest1 =>
                simp only [validate_cont3] at hv
                by_cases hc1 : b1 &&& 0xC0 = 0x80
                · rw [if_pos hc1] at hv
                  match rest1 with
                  | [] => exact Bool.noConfusion hv
                  | b2 :: rest2 =>
                    simp only [validate_cont2] at hv
                    by_cases hc2 : b2 &&& 0xC0 = 0x80
                    · rw [if_pos hc2] at hv
                      match rest2 with
                      | [] => exact Bool.noConfusion hv
                      | b3 :: rest3 =>
                        simp only [validate_cont1] at hv
                        by_cases hc3 : b3 &&& 0xC0 = 0x80
                        · rw [if_pos hc3] at hv
                          exact .four b b1 b2 b3 rest3 h4 hc1 hc2 hc3
                            (ih rest3 (by simp at hl; omega) hv)
                        · rw [if_neg hc3] at hv
                          exact Bool.noConfusion hv
                    · rw [if_neg hc2] at hv
                      exact Bool.noConfusion hv
                · rw [if_neg hc1] at hv
                  exact Bool.noConfusion hv
            · rw [if_neg h4] at hv
              exact Bool.noConfusion hv

/-- Completeness of the validator: every loose unit decomposition is
accepted. -/
theorem validate_utf8_complete (bs : List Nat) (h : LooseUtf8 bs) :
    validate_utf8 bs = true := by
  induction h with
  | nil => rfl
  | ascii b rest hb _ ih =>
    simp only [validate_utf8]
    rw [if_pos hb]
    exact ih
  | two b b1 rest hb h1 _ ih =>
    simp only [validate_utf8]
    rw [if_neg (not_ascii_of_masked b 0xE0 0xC0 hb (by decide)), if_pos hb]
    simp only [validate_cont1]
    rw [if_pos h1]
    exact ih
  | three b b1 b2 rest hb h1 h2 _ ih =>
    simp only [validate_utf8]
    rw [if_neg (not_ascii_of_masked b 0xF0 0xE0 hb (by decide)),
        if_neg (three_not_two b hb), if_pos hb]
    simp only [validate_cont2]
    rw [if_pos h1]
    simp only [validate_cont1]
    rw [if_pos h2]
    exact ih
  | four b b1 b2 b3 rest hb h1 h2 h3 _ ih =>
    simp only [validate_utf8]
    rw [if_neg (not_ascii_of_masked b 0xF8 0xF0 hb (by decide)),
        if_neg (four_not_two b hb), if_neg (four_not_three b hb), if_pos hb]
    simp only [validate_cont3]
    rw [if_pos h1]
    simp only [validate_cont2]
    rw [if_pos h2]
    simp only [validate_cont1]
    rw [if_pos h3]
    exact ih

/-- Claim C4, amended: validate_utf8 accepts exactly the byte sequences
that decompose into loose units: ASCII bytes, and two, three and four
byte sequences recognised by the lead byte masks with the proper number
of continuation bytes.  This rejects unpaired continuation bytes and
truncated multi byte sequences, but accepts overlong encodings,
surrogates and values beyond U+10FFFF, so the validator accepts a strict
superset of well formed UTF-8. -/
theorem validate_utf8_loose_characterisation (bs : List Nat) :
    validate_utf8 bs = true ↔ LooseUtf8 bs :=
  ⟨validate_utf8_sound bs.length bs le_rfl, validate_utf8_complete bs⟩

/-- Claim C4, counterexample to the original wording: the overlong two
byte encoding C0 80 of U+0000 is accepted by validate_utf8 although it is
not well formed UTF-8, contradicting the claim that overlong encodings
such as C0 80 are rejected. -/
theorem validate_utf8_overlong_counterexample :
    validate_utf8 [0xC0, 0x80] = true ∧
    utf8_well_formed [0xC0, 0x80] = false := by
  exact ⟨rfl, rfl⟩

end Photon
